import Mathlib

/-!
Verification of the cattle-breed-recognition Express backend.

The definitions below are a shallow embedding of the TypeScript sources:
the authorization middleware (src/middleware/auth.middleware.ts), the
auth / user / prediction controllers (src/controllers), the user service
(src/services/user.service.ts) and the Flask classification client
(src/services/flask.service.ts).  External effects (identity verifier,
relational store, Firestore mirror, the Flask HTTP service) are modelled
as explicit inputs: the store is a list of rows, the verifier and the
scorer are parameters describing the outcome of the corresponding call.
-/

namespace CowSIH

/-! ## Data model (prisma entities) -/

/-- User roles, as in the prisma `UserRole` enum. -/
inductive UserRole
  | FARMER
  | OFFICER
  | ADMIN
  deriving DecidableEq, Repr

/-- A `User` row of the relational store. -/
structure User where
  id : String
  firebaseUid : String
  email : String
  name : Option String
  role : UserRole
  profileImage : Option String
  isActive : Bool
  createdAt : Nat
  deriving DecidableEq, Repr

/-- Classifier-supplied extra breed information (`breed_info` of the Flask
response, `additionalInfo` of the service result). -/
structure BreedInfo where
  description : Option String
  characteristics : Option (List String)
  origin : Option String
  deriving DecidableEq, Repr

/-- The metadata bundle stored with a prediction row. -/
structure PredictionMetadata where
  originalFilename : String
  fileSize : Nat
  mimeType : String
  additionalInfo : Option BreedInfo
  deriving DecidableEq, Repr

/-- A `Prediction` row of the relational store. -/
structure Prediction where
  id : String
  userId : String
  imagePath : String
  breedName : String
  confidence : Rat
  processingTime : Rat
  metadata : Option PredictionMetadata
  createdAt : Nat
  deriving DecidableEq, Repr

/-! ## String helpers mirroring the JavaScript operations used -/

/-- Whether the first character list occurs at the start of the second. -/
def charsStartWith : List Char → List Char → Bool
  | [], _ => true
  | _ :: _, [] => false
  | p :: ps, t :: ts => p == t && charsStartWith ps ts

/-- Whether the first character list occurs somewhere inside the second. -/
def charsContain (pat text : List Char) : Bool :=
  match text with
  | [] => charsStartWith pat []
  | _ :: ts => charsStartWith pat text || charsContain pat ts

/-- JavaScript `msg.includes(pat)`. -/
def strIncludes (msg pat : String) : Bool :=
  charsContain pat.toList msg.toList

/-- Split a character list at every space, as JavaScript
`str.split(' ')` does (adjacent separators yield empty pieces). -/
def splitSpaces : List Char → List Char → List (List Char)
  | [], acc => [acc.reverse]
  | c :: cs, acc =>
    if c == ' ' then acc.reverse :: splitSpaces cs []
    else splitSpaces cs (c :: acc)

/-- JavaScript `str.split(' ')`. -/
def jsSplitSpace (s : String) : List String :=
  (splitSpaces s.toList []).map List.asString

/-- JavaScript `authHeader && authHeader.split(' ')[1]` followed by the
falsiness test `if (!token)`: the empty string counts as no token. -/
def extractBearerToken (authHeader : Option String) : Option String :=
  match authHeader with
  | none => none
  | some h =>
    match (jsSplitSpace h)[1]? with
    | none => none
    | some t => if t = "" then none else some t

/-- JavaScript `name || null` applied to an optional string: the empty
string collapses to null. -/
def jsOrNull (s : Option String) : Option String :=
  match s with
  | none => none
  | some t => if t = "" then none else some t

/-! ## Identity verifier and authorization gate
(src/middleware/auth.middleware.ts) -/

/-- Outcome of `admin.auth().verifyIdToken(token)`: either a decoded token
or a thrown cryptographic/expiry error. -/
inductive TokenVerification
  | valid (uid : String) (email : Option String) (name : Option String)
  | invalid
  deriving DecidableEq, Repr

/-- The context `authenticateToken` attaches to the request on success. -/
structure AuthContext where
  uid : String
  email : String
  role : UserRole
  userId : String
  deriving DecidableEq, Repr

/-- Result of the authorization gate: an HTTP rejection or the request
proceeding with an attached context. -/
inductive GateResult
  | reject (status : Nat) (error : String)
  | proceed (ctx : AuthContext)
  deriving DecidableEq, Repr

/-- `prisma.user.findUnique({ where: { firebaseUid } })`. -/
def findUserByFirebaseUid (db : List User) (uid : String) : Option User :=
  db.find? (fun u => u.firebaseUid == uid)

/-- The `authenticateToken` middleware.  `verify` models the external
identity verifier applied to the extracted bearer token. -/
def authenticateToken (verify : String → TokenVerification)
    (authHeader : Option String) (db : List User) : GateResult :=
  match extractBearerToken authHeader with
  | none => .reject 401 "Access token required"
  | some tok =>
    match verify tok with
    | .invalid => .reject 403 "Invalid or expired token"
    | .valid uid _ _ =>
      match findUserByFirebaseUid db uid with
      | none => .reject 404 "User not found in database"
      | some u =>
        if !u.isActive then .reject 403 "User account is deactivated"
        else .proceed ⟨uid, u.email, u.role, u.id⟩

/-- The `authorize(allowedRoles)` middleware factory, applied to a request
that already carries a context. -/
def authorize (allowedRoles : List UserRole) (ctx : AuthContext) : GateResult :=
  if !(allowedRoles.contains ctx.role) then .reject 403 "Insufficient permissions"
  else .proceed ctx

/-- `isFarmer` role gate. -/
def isFarmerRoles : List UserRole := [.FARMER, .OFFICER, .ADMIN]

/-- The HTTP status of a gate result, if it is a rejection. -/
def GateResult.rejectStatus : GateResult → Option Nat
  | .reject s _ => some s
  | .proceed _ => none

/-! ## Flask classification client (src/services/flask.service.ts) -/

/-- The service-level result `BreedPredictionResult`. -/
structure BreedPredictionResult where
  breedName : String
  confidence : Rat
  processingTime : Option Rat
  additionalInfo : Option BreedInfo
  deriving DecidableEq, Repr

/-- Outcome of the `axios.post` scoring call inside
`FlaskService.predictBreed`: a parsed 2xx body (which may still carry an
`error` field), a connection refusal, a non-2xx HTTP status (with the
axios error message), some other axios failure, or a non-axios failure. -/
inductive FlaskResponse
  | ok (prediction : String) (confidence : Rat) (processing_time : Option Rat)
      (breed_info : Option BreedInfo) (error : Option String)
  | connRefused
  | httpError (status : Nat) (msg : String)
  | axiosOther (msg : String)
  | nonAxiosError
  deriving DecidableEq, Repr

/-- `FlaskService.predictBreed`.  Note that the `throw new Error('Flask API
error: …')` raised for an `error` field in a 2xx body is itself caught by
the surrounding `catch`; it is not an axios error, so the function
rethrows the generic communication-failure message for that case. -/
def flaskPredictBreed (resp : FlaskResponse) : Except String BreedPredictionResult :=
  match resp with
  | .ok prediction confidence processing_time breed_info err =>
    match err with
    | some _ => .error "Failed to communicate with Flask backend"
    | none => .ok ⟨prediction, confidence, processing_time, breed_info⟩
  | .connRefused => .error "Flask backend is not running. Please start the Flask server."
  | .httpError status msg =>
    if status = 400 then .error "Invalid image format or size"
    else if status = 500 then .error "Flask backend processing error"
    else .error ("Flask API request failed: " ++ msg)
  | .axiosOther msg => .error ("Flask API request failed: " ++ msg)
  | .nonAxiosError => .error "Failed to communicate with Flask backend"

/-! ## Prediction controller (src/controllers/prediction.controller.ts) -/

/-- An uploaded file as multer presents it to the handler. -/
structure FileUpload where
  originalname : String
  size : Nat
  mimetype : String
  deriving DecidableEq, Repr

/-- The multer `fileFilter` allow-list. -/
def allowedTypes : List String := ["image/jpeg", "image/jpg", "image/png", "image/webp"]

/-- The multer `fileFilter` predicate: accept iff the declared media type
is in `allowedTypes`. -/
def fileFilter (mimetype : String) : Bool := allowedTypes.contains mimetype

/-- Network calls made to the Flask service, for tracing which external
interactions an execution performs. -/
inductive FlaskCall
  | healthProbe
  | scoringCall
  deriving DecidableEq, Repr

/-- A simplified HTTP response: status plus an error message when the body
is an error envelope. -/
structure HttpReply where
  status : Nat
  error : Option String
  deriving DecidableEq, Repr

/-- Outcome of running the `predictBreed` handler: the reply, the resulting
prediction store, and the trace of Flask calls made. -/
structure PredictOutcome where
  reply : HttpReply
  db : List Prediction
  flaskCalls : List FlaskCall
  deriving DecidableEq, Repr

/-- The `catch` block of `PredictionController.predictBreed`, mapping the
message of a thrown `Error` to the HTTP reply. -/
def predictBreedCatch (msg : String) : HttpReply :=
  if strIncludes msg "Flask backend is not running" then
    ⟨503, some "Prediction service is temporarily unavailable"⟩
  else if strIncludes msg "Invalid image format" then
    ⟨400, some "Invalid image format or corrupted file"⟩
  else
    ⟨500, some "Failed to process image prediction"⟩

/-- `PredictionController.predictBreed`.  `healthy` is the outcome of
`FlaskService.checkFlaskHealth`, `scorerResp` the outcome of the scoring
call (consulted only if the handler reaches it), `newId` the id the store
assigns to the created row, `elapsedMs` the measured wall-clock time and
`now` the row's creation timestamp. -/
def predictBreedHandler (userId : String) (file : Option FileUpload)
    (healthy : Bool) (scorerResp : FlaskResponse) (newId : String)
    (elapsedMs : Nat) (now : Nat) (db : List Prediction) : PredictOutcome :=
  match file with
  | none => ⟨⟨400, some "Image file is required"⟩, db, []⟩
  | some f =>
    if !healthy then
      ⟨⟨503, some "Prediction service is currently unavailable. Please try again later."⟩,
        db, [.healthProbe]⟩
    else
      match flaskPredictBreed scorerResp with
      | .error msg => ⟨predictBreedCatch msg, db, [.healthProbe, .scoringCall]⟩
      | .ok pred =>
        let row : Prediction :=
          { id := newId
            userId := userId
            imagePath := "temp/" ++ f.originalname
            breedName := pred.breedName
            confidence := pred.confidence
            processingTime := (elapsedMs : Rat) / 1000
            metadata := some ⟨f.originalname, f.size, f.mimetype, pred.additionalInfo⟩
            createdAt := now }
        ⟨⟨200, none⟩, db ++ [row], [.healthProbe, .scoringCall]⟩

/-- Modelled from the spec: `src/middleware/error.middleware.ts` is imported
by the application entry point but its source is not present under the
repository sources.  Per the spec, a file-type violation raised by the
upload stage is rejected with `InvalidRequest` (HTTP 400), carrying the
filter's message. -/
def errorMiddleware (msg : String) : HttpReply := ⟨400, some msg⟩

/-- The full `POST /predictions/breed` pipeline
(src/routes/prediction.routes.ts): `authenticateToken`, then the
`isFarmer` role gate, then `upload.single('image')` running the multer
`fileFilter`, then the handler. -/
def postBreedRoute (verify : String → TokenVerification) (authHeader : Option String)
    (users : List User) (file : Option FileUpload) (healthy : Bool)
    (scorerResp : FlaskResponse) (newId : String) (elapsedMs : Nat) (now : Nat)
    (db : List Prediction) : PredictOutcome :=
  match authenticateToken verify authHeader users with
  | .reject s e => ⟨⟨s, some e⟩, db, []⟩
  | .proceed ctx =>
    match authorize isFarmerRoles ctx with
    | .reject s e => ⟨⟨s, some e⟩, db, []⟩
    | .proceed ctx =>
      match file with
      | some f =>
        if fileFilter f.mimetype then
          predictBreedHandler ctx.userId (some f) healthy scorerResp newId elapsedMs now db
        else
          ⟨errorMiddleware "Invalid file type. Only JPEG, PNG, and WebP are allowed.", db, []⟩
      | none =>
        predictBreedHandler ctx.userId none healthy scorerResp newId elapsedMs now db

/-! ## User service (src/services/user.service.ts) -/

/-- Outcome of the Firestore mirror write attempted by
`syncUserRoleToFirestore`: success, a thrown failure, or Firestore not
being configured (`getFirestoreDb()` returning null). -/
inductive MirrorOutcome
  | ok
  | failure (msg : String)
  | unconfigured
  deriving DecidableEq, Repr

/-- `UserService.syncUserRoleToFirestore` catches every mirror failure and
only logs it; the function always returns normally.  The boolean records
whether an error was logged. -/
def syncUserRoleToFirestore (mirror : MirrorOutcome) : Bool :=
  match mirror with
  | .failure _ => true
  | _ => false

/-- `CreateUserData` of the user service. -/
structure CreateUserData where
  firebaseUid : String
  email : String
  name : Option String
  role : Option UserRole
  deriving DecidableEq, Repr

/-- `UpdateUserData` of the user service: a field is updated iff it is
present. -/
structure UpdateUserData where
  name : Option String := none
  role : Option UserRole := none
  profileImage : Option String := none
  isActive : Option Bool := none
  deriving DecidableEq, Repr

/-- Modelled from the spec: the prisma schema (`prisma/schema.prisma`) is
not present under the repository sources, so the store-assigned defaults
of `prisma.user.create` are taken from the spec's data model — a newly
created User starts Active (`isActive = true`); `id` and `createdAt` are
store-assigned and modelled as explicit inputs. -/
def createUserRow (newId : String) (now : Nat) (data : CreateUserData) : User :=
  { id := newId
    firebaseUid := data.firebaseUid
    email := data.email
    name := data.name
    role := data.role.getD .FARMER
    profileImage := none
    isActive := true
    createdAt := now }

/-- Result of `UserService.createUser`: the returned row, the resulting
store, and whether the Firestore mirror logged a swallowed error. -/
structure CreateResult where
  user : User
  db : List User
  mirrorErrorLogged : Bool
  deriving DecidableEq, Repr

/-- `UserService.createUser`: insert the row, then best-effort mirror of
the role to Firestore. -/
def createUser (mirror : MirrorOutcome) (newId : String) (now : Nat)
    (data : CreateUserData) (db : List User) : CreateResult :=
  let u := createUserRow newId now data
  ⟨u, db ++ [u], syncUserRoleToFirestore mirror⟩

/-- Apply an `UpdateUserData` to a row, as `prisma.user.update` does:
absent fields are left untouched. -/
def applyUpdate (d : UpdateUserData) (u : User) : User :=
  { u with
    name := match d.name with | some n => some n | none => u.name
    role := d.role.getD u.role
    profileImage := match d.profileImage with | some p => some p | none => u.profileImage
    isActive := d.isActive.getD u.isActive }

/-- `prisma.user.findUnique({ where: { id } })`. -/
def findUserById (db : List User) (id : String) : Option User :=
  db.find? (fun u => u.id == id)

/-- `UserService.updateUser`: `prisma.user.update` (throws if the row is
absent, modelled as `Except.error`), then, when a role was part of the
update, best-effort mirror to Firestore. -/
def updateUser (mirror : MirrorOutcome) (db : List User) (id : String)
    (d : UpdateUserData) : Except String (User × List User × Bool) :=
  match findUserById db id with
  | none => .error "Record to update not found"
  | some u =>
    let u2 := applyUpdate d u
    let db2 := db.map (fun v => if v.id == id then u2 else v)
    let logged := match d.role with
      | some _ => syncUserRoleToFirestore mirror
      | none => false
    .ok (u2, db2, logged)

/-- The primary-operation part of an `updateUser` result (row and store),
with the mirror log flag erased. -/
def updatePrimary (r : Except String (User × List User × Bool)) :
    Except String (User × List User) :=
  r.map (fun x => (x.1, x.2.1))

/-- `UserService.deleteUser`: soft delete, `prisma.user.update` with
`data: { isActive: false }`. -/
def deleteUser (db : List User) (id : String) : List User :=
  db.map (fun u => if u.id == id then { u with isActive := false } else u)

/-! ## Auth controller (src/controllers/auth.controller.ts,
`AuthController.authenticateUser`) -/

/-- The response body of the authenticate-or-register endpoint. -/
inductive AuthBody
  | registered (id : String) (email : String) (name : Option String) (role : UserRole)
  | loggedIn (id : String) (email : String) (name : Option String) (role : UserRole)
  | err (msg : String)
  deriving DecidableEq, Repr

/-- Outcome of the authenticate-or-register endpoint: HTTP status, body,
resulting user store, and the mirror log flag from a creation. -/
structure AuthOutcome where
  status : Nat
  body : AuthBody
  db : List User
  mirrorErrorLogged : Bool
  deriving DecidableEq, Repr

/-- The `isNewUser` flag of the response body, when the call succeeded. -/
def AuthBody.isNewUser : AuthBody → Option Bool
  | .registered _ _ _ _ => some true
  | .loggedIn _ _ _ _ => some false
  | .err _ => none

/-- `AuthController.authenticateUser` (mounted at both `POST /auth/login`
and `POST /auth/register`).  A verifier failure is caught by the outer
`catch` and mapped to HTTP 500. -/
def authenticateUser (verify : String → TokenVerification) (authHeader : Option String)
    (mirror : MirrorOutcome) (newId : String) (now : Nat) (db : List User) : AuthOutcome :=
  match extractBearerToken authHeader with
  | none => ⟨401, .err "Access token required", db, false⟩
  | some tok =>
    match verify tok with
    | .invalid => ⟨500, .err "Authentication failed", db, false⟩
    | .valid uid email name =>
      match email with
      | none => ⟨400, .err "Email is required", db, false⟩
      | some em =>
        match findUserByFirebaseUid db uid with
        | none =>
          let cr := createUser mirror newId now ⟨uid, em, jsOrNull name, some .FARMER⟩ db
          ⟨201, .registered cr.user.id cr.user.email cr.user.name cr.user.role,
            cr.db, cr.mirrorErrorLogged⟩
        | some u =>
          if !u.isActive then ⟨403, .err "Account is deactivated", db, false⟩
          else ⟨200, .loggedIn u.id u.email u.name u.role, db, false⟩

/-! ## Ordering and pagination (`orderBy: { createdAt: 'desc' }`,
`skip`, `take`, and the pagination envelope) -/

/-- Descending creation-time order on predictions. -/
def predCreatedDesc (a b : Prediction) : Prop := b.createdAt ≤ a.createdAt

instance : DecidableRel predCreatedDesc := fun a b => Nat.decLe b.createdAt a.createdAt

instance : IsTotal Prediction predCreatedDesc :=
  ⟨fun a b => Nat.le_total b.createdAt a.createdAt⟩

instance : IsTrans Prediction predCreatedDesc :=
  ⟨fun _ _ _ h1 h2 => Nat.le_trans h2 h1⟩

/-- Descending creation-time order on users. -/
def userCreatedDesc (a b : User) : Prop := b.createdAt ≤ a.createdAt

instance : DecidableRel userCreatedDesc := fun a b => Nat.decLe b.createdAt a.createdAt

instance : IsTotal User userCreatedDesc :=
  ⟨fun a b => Nat.le_total b.createdAt a.createdAt⟩

instance : IsTrans User userCreatedDesc :=
  ⟨fun _ _ _ h1 h2 => Nat.le_trans h2 h1⟩

/-- Predictions ordered by `createdAt` descending. -/
def orderPredsDesc (l : List Prediction) : List Prediction :=
  List.insertionSort predCreatedDesc l

/-- Users ordered by `createdAt` descending. -/
def orderUsersDesc (l : List User) : List User :=
  List.insertionSort userCreatedDesc l

/-- JavaScript `Math.ceil(total / limit)` on naturals (for `limit > 0`). -/
def jsCeilDiv (total limit : Nat) : Nat := (total + limit - 1) / limit

/-- The pagination envelope `{page, limit, total, pages}`. -/
structure PageInfo where
  page : Nat
  limit : Nat
  total : Nat
  pages : Nat
  deriving DecidableEq, Repr

/-- The envelope as every listing endpoint builds it:
`pages = Math.ceil(total / limit)`. -/
def mkPageInfo (page limit total : Nat) : PageInfo :=
  ⟨page, limit, total, jsCeilDiv total limit⟩

/-- The `select` projection of `getPredictionHistory`. -/
structure HistoryItem where
  id : String
  breedName : String
  confidence : Rat
  processingTime : Rat
  createdAt : Nat
  metadata : Option PredictionMetadata
  deriving DecidableEq, Repr

/-- Project a prediction row to the history `select` fields. -/
def historySelect (p : Prediction) : HistoryItem :=
  ⟨p.id, p.breedName, p.confidence, p.processingTime, p.createdAt, p.metadata⟩

/-- `PredictionController.getPredictionHistory`: rows of the calling user,
ordered by creation time descending, `skip = (page-1)*limit`, `take =
limit`, plus the envelope over the user's total row count. -/
def getPredictionHistory (db : List Prediction) (userId : String)
    (page limit : Nat) : List HistoryItem × PageInfo :=
  let mine := db.filter (fun p => p.userId == userId)
  let rows := ((orderPredsDesc mine).drop ((page - 1) * limit)).take limit
  ⟨rows.map historySelect, mkPageInfo page limit mine.length⟩

/-- The `select` projection of `UserService.getAllUsers`, including the
`_count` of predictions. -/
structure UserListItem where
  id : String
  email : String
  name : Option String
  role : UserRole
  isActive : Bool
  createdAt : Nat
  predictionsCount : Nat
  deriving DecidableEq, Repr

/-- `UserService.getAllUsers`: all users ordered by creation time
descending, `skip = (page-1)*limit`, `take = limit`, plus the envelope
over the total user count. -/
def getAllUsers (db : List User) (pdb : List Prediction)
    (page limit : Nat) : List UserListItem × PageInfo :=
  let rows := ((orderUsersDesc db).drop ((page - 1) * limit)).take limit
  ⟨rows.map (fun u =>
      ⟨u.id, u.email, u.name, u.role, u.isActive, u.createdAt,
        (pdb.filter (fun p => p.userId == u.id)).length⟩),
    mkPageInfo page limit db.length⟩

/-! ## Prediction lookup (`PredictionController.getPredictionById`) -/

/-- `prisma.prediction.findFirst({ where: { id, userId } })` followed by
the 404-or-200 branch of `getPredictionById`. -/
def getPredictionById (db : List Prediction) (callerId : String)
    (id : String) : Nat × Option Prediction :=
  match db.find? (fun p => p.id == id && p.userId == callerId) with
  | none => (404, none)
  | some p => (200, some p)

/-! ## User controller (src/controllers/user.controller.ts) -/

/-- A user row as returned across the HTTP boundary after
`const { firebaseUid, ...userProfile } = user`. -/
structure PublicUser where
  id : String
  email : String
  name : Option String
  role : UserRole
  profileImage : Option String
  isActive : Bool
  createdAt : Nat
  deriving DecidableEq, Repr

/-- Destructure away `firebaseUid` from a user row. -/
def stripFirebaseUid (u : User) : PublicUser :=
  ⟨u.id, u.email, u.name, u.role, u.profileImage, u.isActive, u.createdAt⟩

/-- `UserService.getUserById` includes the user's ten most recent
predictions; the controller then strips `firebaseUid`.  This models both
`UserController.getProfile` (with the caller's id) and
`UserController.getUserById` (with a path parameter). -/
def getProfileEndpoint (db : List User) (pdb : List Prediction)
    (id : String) : Nat × Option (PublicUser × List Prediction) :=
  match findUserById db id with
  | none => (404, none)
  | some u =>
    (200, some (stripFirebaseUid u,
      (orderPredsDesc (pdb.filter (fun p => p.userId == u.id))).take 10))

/-- `UserController.updateProfile`: update `name` / `profileImage` via the
user service, then strip `firebaseUid` from the returned row.  An update
failure is caught and mapped to HTTP 500. -/
def updateProfileEndpoint (mirror : MirrorOutcome) (db : List User)
    (callerId : String) (name profileImage : Option String) :
    (Nat × Option PublicUser) × List User :=
  match updateUser mirror db callerId { name := name, profileImage := profileImage } with
  | .error _ => ((500, none), db)
  | .ok (u, db2, _) => ((200, some (stripFirebaseUid u)), db2)

/-- `UserController.deactivateUser`: an admin cannot deactivate their own
account; otherwise the user service soft-deletes the target row. -/
def deactivateUserEndpoint (db : List User) (callerId id : String) :
    HttpReply × List User :=
  if id == callerId then (⟨400, some "Cannot deactivate your own account"⟩, db)
  else (⟨200, none⟩, deleteUser db id)

/-! ## Theorems -/

/-- Helper: `L * jsCeilDiv N L` is at least `N`. -/
theorem jsCeilDiv_mul_ge (N L : Nat) (hL : 0 < L) : N ≤ L * jsCeilDiv N L := by
  unfold jsCeilDiv
  have h1 := Nat.div_add_mod (N + L - 1) L
  have h2 := Nat.mod_lt (N + L - 1) hL
  omega

/-- Helper: `L * jsCeilDiv N L` is less than `N + L`. -/
theorem jsCeilDiv_mul_lt (N L : Nat) (hL : 0 < L) : L * jsCeilDiv N L < N + L := by
  unfold jsCeilDiv
  have h1 := Nat.div_add_mod (N + L - 1) L
  have h2 := Nat.mod_lt (N + L - 1) hL
  omega

/-- Helper: for a positive limit, the JavaScript envelope computation
agrees with the mathematical ceiling of `N / L`. -/
theorem jsCeilDiv_eq_natCeil (N L : Nat) (hL : 0 < L) :
    jsCeilDiv N L = ⌈(N : ℚ) / (L : ℚ)⌉₊ := by
  rcases Nat.eq_zero_or_pos N with hN | hN
  · subst hN
    have hz : jsCeilDiv 0 L = 0 := by
      unfold jsCeilDiv
      exact Nat.div_eq_of_lt (by omega)
    rw [hz]
    simp
  · have hq : jsCeilDiv N L ≠ 0 := by
      have h1 := jsCeilDiv_mul_ge N L hL
      intro h0
      rw [h0, Nat.mul_zero] at h1
      omega
    have hLQ : (0 : ℚ) < (L : ℚ) := by exact_mod_cast hL
    symm
    rw [Nat.ceil_eq_iff hq]
    constructor
    · rw [lt_div_iff₀ hLQ]
      have h1 := jsCeilDiv_mul_lt N L hL
      have h2 : 1 ≤ jsCeilDiv N L := Nat.one_le_iff_ne_zero.mpr hq
      have h3 : (jsCeilDiv N L - 1) * L < N := by
        have h4 : (jsCeilDiv N L - 1) * L = L * jsCeilDiv N L - L := by
          rw [Nat.sub_mul, Nat.one_mul, Nat.mul_comm]
        rw [h4]
        omega
      exact_mod_cast h3
    · rw [div_le_iff₀ hLQ]
      have h1 := jsCeilDiv_mul_ge N L hL
      rw [Nat.mul_comm] at h1
      exact_mod_cast h1

/-- Helper: a page taken out of a sorted list is sorted. -/
theorem pairwise_drop_take {α : Type} {r : α → α → Prop} {l : List α}
    (h : List.Pairwise r l) (s k : Nat) :
    List.Pairwise r ((l.drop s).take k) :=
  h.sublist ((List.take_sublist k (l.drop s)).trans (List.drop_sublist s l))

/-- Helper: if a search misses the first list, searching the
concatenation searches the second list. -/
theorem find?_append_of_none {α : Type} (p : α → Bool) :
    ∀ (l1 l2 : List α), l1.find? p = none → (l1 ++ l2).find? p = l2.find? p
  | [], _, _ => rfl
  | a :: l1, l2, h => by
    by_cases hp : p a
    · simp [List.find?_cons_of_pos _ hp] at h
    · rw [List.cons_append, List.find?_cons_of_neg _ hp]
      rw [List.find?_cons_of_neg _ hp] at h
      exact find?_append_of_none p l1 l2 h

/-- C1, counterexample: the claim states that a request carrying a bearer
token the identity verifier rejects is answered with HTTP 401.  At the
concrete request below (header `Bearer sometoken`, verifier rejecting
every token) the gate answers 403 "Invalid or expired token", not 401. -/
theorem C1_counterexample :
    authenticateToken (fun _ => .invalid) (some "Bearer sometoken") []
      = .reject 403 "Invalid or expired token" ∧
    (authenticateToken (fun _ => .invalid) (some "Bearer sometoken") []).rejectStatus
      ≠ some 401 :=
  ⟨rfl, by decide⟩

/-- C1, amended: for every request to an authenticated route that carries
a bearer token the identity verifier rejects as invalid or expired, the
authorization gate rejects the request with Forbidden (HTTP 403) and the
message "Invalid or expired token"; Unauthenticated (401) is used only
when no token is supplied at all. -/
theorem C1_invalid_token_rejected_with_403 (verify : String → TokenVerification)
    (hdr : Option String) (db : List User) (tok : String)
    (htok : extractBearerToken hdr = some tok)
    (hinv : verify tok = .invalid) :
    authenticateToken verify hdr db = .reject 403 "Invalid or expired token" := by
  simp [authenticateToken, htok, hinv]

/-- C1, witness: the amended theorem applied to the concrete request with
header `Bearer tok` against an all-rejecting verifier and an empty user
store. -/
theorem C1_invalid_token_rejected_with_403_witness :
    extractBearerToken (some "Bearer tok") = some "tok" ∧
    (fun _ : String => TokenVerification.invalid) "tok" = .invalid ∧
    authenticateToken (fun _ => .invalid) (some "Bearer tok") []
      = .reject 403 "Invalid or expired token" :=
  ⟨rfl, rfl,
    C1_invalid_token_rejected_with_403 (fun _ => .invalid) (some "Bearer tok") [] "tok" rfl rfl⟩

/-- C2: for every `POST /predictions/breed` request with a file present,
if the liveness probe of the classification service fails the handler
answers 503, leaves the prediction store unchanged, and never performs
the scoring call. -/
theorem C2_unhealthy_scorer_503_no_row (userId : String) (f : FileUpload)
    (scorerResp : FlaskResponse) (newId : String) (elapsedMs now : Nat)
    (db : List Prediction) :
    (predictBreedHandler userId (some f) false scorerResp newId elapsedMs now db).reply.status
        = 503 ∧
    (predictBreedHandler userId (some f) false scorerResp newId elapsedMs now db).db = db ∧
    FlaskCall.scoringCall ∉
      (predictBreedHandler userId (some f) false scorerResp newId elapsedMs now db).flaskCalls := by
  refine ⟨rfl, rfl, ?_⟩
  show FlaskCall.scoringCall ∉ [FlaskCall.healthProbe]
  decide

/-- C3: the scoring-call failure mapping of the classification
orchestration.  At the service layer, a connection refusal, an HTTP 400,
an HTTP 500 and an explicit error field in a 2xx body each raise the
corresponding error; at the operation level the handler maps them to
ServiceUnavailable (503), InvalidRequest (400), and the two upstream
failures to HTTP 500, storing no row in any failure case. -/
theorem C3_scorer_failure_mapping (userId : String) (f : FileUpload)
    (newId : String) (elapsedMs now : Nat) (db : List Prediction)
    (msg pred : String) (conf : Rat) (pt : Option Rat)
    (bi : Option BreedInfo) (em : String) :
    (flaskPredictBreed .connRefused
      = .error "Flask backend is not running. Please start the Flask server." ∧
     flaskPredictBreed (.httpError 400 msg) = .error "Invalid image format or size" ∧
     flaskPredictBreed (.httpError 500 msg) = .error "Flask backend processing error" ∧
     flaskPredictBreed (.ok pred conf pt bi (some em))
      = .error "Failed to communicate with Flask backend") ∧
    (predictBreedHandler userId (some f) true .connRefused newId elapsedMs now db).reply
      = ⟨503, some "Prediction service is temporarily unavailable"⟩ ∧
    (predictBreedHandler userId (some f) true (.httpError 400 msg) newId elapsedMs now db).reply
      = ⟨400, some "Invalid image format or corrupted file"⟩ ∧
    (predictBreedHandler userId (some f) true (.httpError 500 msg) newId elapsedMs now db).reply
      = ⟨500, some "Failed to process image prediction"⟩ ∧
    (predictBreedHandler userId (some f) true (.ok pred conf pt bi (some em)) newId elapsedMs now db).reply
      = ⟨500, some "Failed to process image prediction"⟩ ∧
    (predictBreedHandler userId (some f) true .connRefused newId elapsedMs now db).db = db ∧
    (predictBreedHandler userId (some f) true (.httpError 400 msg) newId elapsedMs now db).db = db ∧
    (predictBreedHandler userId (some f) true (.httpError 500 msg) newId elapsedMs now db).db = db ∧
    (predictBreedHandler userId (some f) true (.ok pred conf pt bi (some em)) newId elapsedMs now db).db
      = db :=
  ⟨⟨rfl, rfl, rfl, rfl⟩, rfl, rfl, rfl, rfl, rfl, rfl, rfl, rfl⟩

/-- C4: calling the authenticate-or-register endpoint twice with the same
never-before-seen subject (valid credential carrying an email) creates
exactly one User.  The first call creates a User with default role FARMER
and answers with creation semantics (`isNewUser = true`, HTTP 201); the
second call answers with login semantics (`isNewUser = false`, HTTP 200)
and leaves the user store unchanged. -/
theorem C4_register_then_login (verify : String → TokenVerification)
    (hdr : Option String) (m1 m2 : MirrorOutcome) (newId newId2 : String)
    (now now2 : Nat) (db : List User) (tok uid em : String) (nm : Option String)
    (htok : extractBearerToken hdr = some tok)
    (hver : verify tok = .valid uid (some em) nm)
    (hfresh : findUserByFirebaseUid db uid = none) :
    (authenticateUser verify hdr m1 newId now db).status = 201 ∧
    (authenticateUser verify hdr m1 newId now db).body.isNewUser = some true ∧
    (authenticateUser verify hdr m1 newId now db).body
      = .registered newId em (jsOrNull nm) .FARMER ∧
    (authenticateUser verify hdr m1 newId now db).db
      = db ++ [createUserRow newId now ⟨uid, em, jsOrNull nm, some .FARMER⟩] ∧
    ((authenticateUser verify hdr m1 newId now db).db.filter
        (fun u => u.firebaseUid == uid)).length = 1 ∧
    (authenticateUser verify hdr m1 newId now db).db.length = db.length + 1 ∧
    (authenticateUser verify hdr m2 newId2 now2
        (authenticateUser verify hdr m1 newId now db).db).status = 200 ∧
    (authenticateUser verify hdr m2 newId2 now2
        (authenticateUser verify hdr m1 newId now db).db).body.isNewUser = some false ∧
    (authenticateUser verify hdr m2 newId2 now2
        (authenticateUser verify hdr m1 newId now db).db).db
      = (authenticateUser verify hdr m1 newId now db).db := by
  have h1 : authenticateUser verify hdr m1 newId now db =
      ⟨201, .registered newId em (jsOrNull nm) .FARMER,
        db ++ [createUserRow newId now ⟨uid, em, jsOrNull nm, some .FARMER⟩],
        syncUserRoleToFirestore m1⟩ := by
    simp [authenticateUser, htok, hver, hfresh, createUser, createUserRow]
  have h2 : findUserByFirebaseUid
      (db ++ [createUserRow newId now ⟨uid, em, jsOrNull nm, some .FARMER⟩]) uid
      = some (createUserRow newId now ⟨uid, em, jsOrNull nm, some .FARMER⟩) := by
    unfold findUserByFirebaseUid at hfresh ⊢
    rw [find?_append_of_none _ _ _ hfresh]
    simp [createUserRow]
  have h3 : authenticateUser verify hdr m2 newId2 now2
      (db ++ [createUserRow newId now ⟨uid, em, jsOrNull nm, some .FARMER⟩]) =
      ⟨200, .loggedIn newId em (jsOrNull nm) .FARMER,
        db ++ [createUserRow newId now ⟨uid, em, jsOrNull nm, some .FARMER⟩], false⟩ := by
    simp only [authenticateUser, htok, hver, h2]
    simp [createUserRow]
  have h4 : db.filter (fun u => u.firebaseUid == uid) = [] := by
    rw [List.filter_eq_nil_iff]
    intro a ha
    unfold findUserByFirebaseUid at hfresh
    exact List.find?_eq_none.mp hfresh a ha
  rw [h1, h3]
  refine ⟨rfl, rfl, rfl, rfl, ?_, ?_, rfl, rfl, rfl⟩
  · rw [List.filter_append, h4]
    simp [createUserRow]
  · simp

/-- C4, witness: the theorem applied to the concrete request `Bearer tok`
with a verifier yielding subject `uid123` / email `a@example.com` against
an empty user store. -/
theorem C4_register_then_login_witness :
    extractBearerToken (some "Bearer tok") = some "tok" ∧
    (fun _ : String => TokenVerification.valid "uid123" (some "a@example.com") none) "tok"
      = .valid "uid123" (some "a@example.com") none ∧
    findUserByFirebaseUid [] "uid123" = none ∧
    ((authenticateUser (fun _ => .valid "uid123" (some "a@example.com") none)
        (some "Bearer tok") .ok "u1" 0 []).status = 201 ∧
      (authenticateUser (fun _ => .valid "uid123" (some "a@example.com") none)
        (some "Bearer tok") .ok "u1" 0 []).body.isNewUser = some true ∧
      (authenticateUser (fun _ => .valid "uid123" (some "a@example.com") none)
        (some "Bearer tok") .ok "u1" 0 []).body
        = .registered "u1" "a@example.com" (jsOrNull none) .FARMER ∧
      (authenticateUser (fun _ => .valid "uid123" (some "a@example.com") none)
        (some "Bearer tok") .ok "u1" 0 []).db
        = [] ++ [createUserRow "u1" 0 ⟨"uid123", "a@example.com", jsOrNull none, some .FARMER⟩] ∧
      (((authenticateUser (fun _ => .valid "uid123" (some "a@example.com") none)
        (some "Bearer tok") .ok "u1" 0 []).db).filter
          (fun u => u.firebaseUid == "uid123")).length = 1 ∧
      (authenticateUser (fun _ => .valid "uid123" (some "a@example.com") none)
        (some "Bearer tok") .ok "u1" 0 []).db.length = List.length ([] : List User) + 1 ∧
      (authenticateUser (fun _ => .valid "uid123" (some "a@example.com") none)
        (some "Bearer tok") .ok "u2" 1
        (authenticateUser (fun _ => .valid "uid123" (some "a@example.com") none)
          (some "Bearer tok") .ok "u1" 0 []).db).status = 200 ∧
      (authenticateUser (fun _ => .valid "uid123" (some "a@example.com") none)
        (some "Bearer tok") .ok "u2" 1
        (authenticateUser (fun _ => .valid "uid123" (some "a@example.com") none)
          (some "Bearer tok") .ok "u1" 0 []).db).body.isNewUser = some false ∧
      (authenticateUser (fun _ => .valid "uid123" (some "a@example.com") none)
        (some "Bearer tok") .ok "u2" 1
        (authenticateUser (fun _ => .valid "uid123" (some "a@example.com") none)
          (some "Bearer tok") .ok "u1" 0 []).db).db
        = (authenticateUser (fun _ => .valid "uid123" (some "a@example.com") none)
          (some "Bearer tok") .ok "u1" 0 []).db) :=
  ⟨by decide, rfl, rfl,
    C4_register_then_login (fun _ => .valid "uid123" (some "a@example.com") none)
      (some "Bearer tok") .ok .ok "u1" "u2" 0 1 [] "tok" "uid123" "a@example.com" none
      (by decide) rfl rfl⟩

/-- C5: pagination of the listing endpoints.  For the prediction-history
endpoint over N stored rows of the calling user and for the user-listing
endpoint over N stored users, with query parameters `page ≥ 1` and
`limit = L ≥ 1`: the envelope is `{page, limit, total = N, pages}` with
`pages = ⌈N / L⌉`; the returned data is the slice at offset
`(page-1)·L` of the rows ordered by creation time descending; and a page
beyond `pages` yields an empty data set with the same envelope, not an
error. -/
theorem C5_pagination (db pdb : List Prediction) (udb : List User)
    (userId : String) (page limit : Nat) (hp : 1 ≤ page) (hl : 1 ≤ limit) :
    ((getPredictionHistory db userId page limit).2
      = ⟨page, limit, (db.filter (fun p => p.userId == userId)).length,
          jsCeilDiv (db.filter (fun p => p.userId == userId)).length limit⟩ ∧
     (getPredictionHistory db userId page limit).2.pages
      = ⌈((db.filter (fun p => p.userId == userId)).length : ℚ) / (limit : ℚ)⌉₊ ∧
     (getPredictionHistory db userId page limit).1
      = (((orderPredsDesc (db.filter (fun p => p.userId == userId))).drop
          ((page - 1) * limit)).take limit).map historySelect ∧
     List.Sorted (fun a b : HistoryItem => b.createdAt ≤ a.createdAt)
       (getPredictionHistory db userId page limit).1 ∧
     (page > (getPredictionHistory db userId page limit).2.pages →
       (getPredictionHistory db userId page limit).1 = [])) ∧
    ((getAllUsers udb pdb page limit).2
      = ⟨page, limit, udb.length, jsCeilDiv udb.length limit⟩ ∧
     (getAllUsers udb pdb page limit).2.pages
      = ⌈(udb.length : ℚ) / (limit : ℚ)⌉₊ ∧
     List.Sorted (fun a b : UserListItem => b.createdAt ≤ a.createdAt)
       (getAllUsers udb pdb page limit).1 ∧
     (page > (getAllUsers udb pdb page limit).2.pages →
       (getAllUsers udb pdb page limit).1 = [])) := by
  constructor
  · refine ⟨rfl, jsCeilDiv_eq_natCeil _ limit hl, rfl, ?_, ?_⟩
    · show List.Pairwise _
        ((((orderPredsDesc (db.filter (fun p => p.userId == userId))).drop
          ((page - 1) * limit)).take limit).map historySelect)
      rw [List.pairwise_map]
      exact pairwise_drop_take (List.sorted_insertionSort predCreatedDesc _) _ _
    · intro hpg
      have hpg2 : page > jsCeilDiv (db.filter (fun p => p.userId == userId)).length limit :=
        hpg
      have h1 := jsCeilDiv_mul_ge (db.filter (fun p => p.userId == userId)).length limit hl
      have h2 : jsCeilDiv (db.filter (fun p => p.userId == userId)).length limit ≤ page - 1 := by
        omega
      have h3 : (db.filter (fun p => p.userId == userId)).length ≤ (page - 1) * limit := by
        calc (db.filter (fun p => p.userId == userId)).length
            ≤ limit * jsCeilDiv (db.filter (fun p => p.userId == userId)).length limit := h1
          _ ≤ limit * (page - 1) := Nat.mul_le_mul_left _ h2
          _ = (page - 1) * limit := Nat.mul_comm _ _
      have hlen : (orderPredsDesc (db.filter (fun p => p.userId == userId))).length
          = (db.filter (fun p => p.userId == userId)).length :=
        (List.perm_insertionSort predCreatedDesc _).length_eq
      show ((((orderPredsDesc (db.filter (fun p => p.userId == userId))).drop
          ((page - 1) * limit)).take limit).map historySelect) = []
      rw [List.drop_eq_nil_of_le (by rw [hlen]; exact h3), List.take_nil, List.map_nil]
  · refine ⟨rfl, jsCeilDiv_eq_natCeil _ limit hl, ?_, ?_⟩
    · show List.Pairwise _
        ((((orderUsersDesc udb).drop ((page - 1) * limit)).take limit).map
          (fun u => UserListItem.mk u.id u.email u.name u.role u.isActive u.createdAt
            (pdb.filter (fun p => p.userId == u.id)).length))
      rw [List.pairwise_map]
      exact pairwise_drop_take (List.sorted_insertionSort userCreatedDesc _) _ _
    · intro hpg
      have hpg2 : page > jsCeilDiv udb.length limit := hpg
      have h1 := jsCeilDiv_mul_ge udb.length limit hl
      have h2 : jsCeilDiv udb.length limit ≤ page - 1 := by omega
      have h3 : udb.length ≤ (page - 1) * limit := by
        calc udb.length ≤ limit * jsCeilDiv udb.length limit := h1
          _ ≤ limit * (page - 1) := Nat.mul_le_mul_left _ h2
          _ = (page - 1) * limit := Nat.mul_comm _ _
      have hlen : (orderUsersDesc udb).length = udb.length :=
        (List.perm_insertionSort userCreatedDesc _).length_eq
      show ((((orderUsersDesc udb).drop ((page - 1) * limit)).take limit).map
          (fun u => UserListItem.mk u.id u.email u.name u.role u.isActive u.createdAt
            (pdb.filter (fun p => p.userId == u.id)).length)) = []
      rw [List.drop_eq_nil_of_le (by rw [hlen]; exact h3), List.take_nil, List.map_nil]

/-- C5, witness: the pagination theorem applied to empty stores with
`page = 1` and `limit = 1`. -/
theorem C5_pagination_witness :
    (1 : Nat) ≤ 1 ∧ (1 : Nat) ≤ 1 ∧
    ((getPredictionHistory ([] : List Prediction) "u" 1 1).2
      = ⟨1, 1, (([] : List Prediction).filter (fun p => p.userId == "u")).length,
          jsCeilDiv (([] : List Prediction).filter (fun p => p.userId == "u")).length 1⟩ ∧
     (getPredictionHistory ([] : List Prediction) "u" 1 1).2.pages
      = ⌈((([] : List Prediction).filter (fun p => p.userId == "u")).length : ℚ)
          / (((1 : Nat)) : ℚ)⌉₊ ∧
     (getPredictionHistory ([] : List Prediction) "u" 1 1).1
      = (((orderPredsDesc (([] : List Prediction).filter (fun p => p.userId == "u"))).drop
          ((1 - 1) * 1)).take 1).map historySelect ∧
     List.Sorted (fun a b : HistoryItem => b.createdAt ≤ a.createdAt)
       (getPredictionHistory ([] : List Prediction) "u" 1 1).1 ∧
     (1 > (getPredictionHistory ([] : List Prediction) "u" 1 1).2.pages →
       (getPredictionHistory ([] : List Prediction) "u" 1 1).1 = [])) ∧
    ((getAllUsers ([] : List User) ([] : List Prediction) 1 1).2
      = ⟨1, 1, ([] : List User).length, jsCeilDiv ([] : List User).length 1⟩ ∧
     (getAllUsers ([] : List User) ([] : List Prediction) 1 1).2.pages
      = ⌈(([] : List User).length : ℚ) / (((1 : Nat)) : ℚ)⌉₊ ∧
     List.Sorted (fun a b : UserListItem => b.createdAt ≤ a.createdAt)
       (getAllUsers ([] : List User) ([] : List Prediction) 1 1).1 ∧
     (1 > (getAllUsers ([] : List User) ([] : List Prediction) 1 1).2.pages →
       (getAllUsers ([] : List User) ([] : List Prediction) 1 1).1 = [])) :=
  ⟨by decide, by decide,
    C5_pagination ([] : List Prediction) ([] : List Prediction) ([] : List User) "u" 1 1
      (by decide) (by decide)⟩

/-- C6: a failure of the best-effort Firestore role mirror never fails the
primary operation.  The row and store produced by `createUser` and
`updateUser` do not depend on the mirror outcome; with a failing mirror,
a role-carrying update of an existing row and a creation both still
succeed, returning the primary result unchanged, with the mirror error
merely logged. -/
theorem C6_mirror_failure_swallowed (m1 m2 : MirrorOutcome) (db : List User)
    (id newId : String) (now : Nat) (cd : CreateUserData) (d : UpdateUserData)
    (emsg : String) (u : User) (r : UserRole)
    (hfound : findUserById db id = some u) :
    (createUser m1 newId now cd db).user = (createUser m2 newId now cd db).user ∧
    (createUser m1 newId now cd db).db = (createUser m2 newId now cd db).db ∧
    updatePrimary (updateUser m1 db id d) = updatePrimary (updateUser m2 db id d) ∧
    updateUser (.failure emsg) db id { d with role := some r }
      = .ok (applyUpdate { d with role := some r } u,
          db.map (fun v => if v.id == id then applyUpdate { d with role := some r } u else v),
          true) ∧
    createUser (.failure emsg) newId now cd db
      = ⟨createUserRow newId now cd, db ++ [createUserRow newId now cd], true⟩ := by
  refine ⟨rfl, rfl, ?_, ?_, rfl⟩
  · cases h : findUserById db id <;> simp [updateUser, updatePrimary, h, Except.map]
  · simp [updateUser, hfound, syncUserRoleToFirestore]

/-- C6, witness: the theorem applied to a one-row store, updating that
row's role with a failing mirror. -/
theorem C6_mirror_failure_swallowed_witness :
    findUserById [User.mk "u1" "fb1" "a@b.c" none .FARMER none true 0] "u1"
      = some (User.mk "u1" "fb1" "a@b.c" none .FARMER none true 0) ∧
    ((createUser .ok "n" 0 ⟨"fb2", "x@y.z", none, none⟩
        [User.mk "u1" "fb1" "a@b.c" none .FARMER none true 0]).user
      = (createUser .unconfigured "n" 0 ⟨"fb2", "x@y.z", none, none⟩
        [User.mk "u1" "fb1" "a@b.c" none .FARMER none true 0]).user ∧
     (createUser .ok "n" 0 ⟨"fb2", "x@y.z", none, none⟩
        [User.mk "u1" "fb1" "a@b.c" none .FARMER none true 0]).db
      = (createUser .unconfigured "n" 0 ⟨"fb2", "x@y.z", none, none⟩
        [User.mk "u1" "fb1" "a@b.c" none .FARMER none true 0]).db ∧
     updatePrimary (updateUser .ok
        [User.mk "u1" "fb1" "a@b.c" none .FARMER none true 0] "u1" {})
      = updatePrimary (updateUser .unconfigured
        [User.mk "u1" "fb1" "a@b.c" none .FARMER none true 0] "u1" {}) ∧
     updateUser (.failure "down")
        [User.mk "u1" "fb1" "a@b.c" none .FARMER none true 0] "u1"
        { ({} : UpdateUserData) with role := some .OFFICER }
      = .ok (applyUpdate { ({} : UpdateUserData) with role := some .OFFICER }
            (User.mk "u1" "fb1" "a@b.c" none .FARMER none true 0),
          [User.mk "u1" "fb1" "a@b.c" none .FARMER none true 0].map
            (fun v => if v.id == "u1" then
              applyUpdate { ({} : UpdateUserData) with role := some .OFFICER }
                (User.mk "u1" "fb1" "a@b.c" none .FARMER none true 0) else v),
          true) ∧
     createUser (.failure "down") "n" 0 ⟨"fb2", "x@y.z", none, none⟩
        [User.mk "u1" "fb1" "a@b.c" none .FARMER none true 0]
      = ⟨createUserRow "n" 0 ⟨"fb2", "x@y.z", none, none⟩,
          [User.mk "u1" "fb1" "a@b.c" none .FARMER none true 0]
            ++ [createUserRow "n" 0 ⟨"fb2", "x@y.z", none, none⟩], true⟩) :=
  ⟨by decide,
    C6_mirror_failure_swallowed .ok .unconfigured
      [User.mk "u1" "fb1" "a@b.c" none .FARMER none true 0] "u1" "n" 0
      ⟨"fb2", "x@y.z", none, none⟩ {} "down"
      (User.mk "u1" "fb1" "a@b.c" none .FARMER none true 0) .OFFICER (by decide)⟩

/-- C7: an upload whose declared media type fails the multer allow-list is
rejected with HTTP 400 before the handler runs: the prediction store is
unchanged and no Flask call (neither the liveness probe nor the scoring
call) is made, for any authenticated request. -/
theorem C7_file_type_gate_before_network (verify : String → TokenVerification)
    (hdr : Option String) (users : List User) (f : FileUpload) (healthy : Bool)
    (scorerResp : FlaskResponse) (newId : String) (elapsedMs now : Nat)
    (db : List Prediction) (ctx : AuthContext)
    (hgate : authenticateToken verify hdr users = .proceed ctx)
    (hmime : fileFilter f.mimetype = false) :
    (postBreedRoute verify hdr users (some f) healthy scorerResp newId elapsedMs now db).reply
      = ⟨400, some "Invalid file type. Only JPEG, PNG, and WebP are allowed."⟩ ∧
    (postBreedRoute verify hdr users (some f) healthy scorerResp newId elapsedMs now db).flaskCalls
      = [] ∧
    (postBreedRoute verify hdr users (some f) healthy scorerResp newId elapsedMs now db).db
      = db := by
  have hrole : authorize isFarmerRoles ctx = .proceed ctx := by
    obtain ⟨cuid, cem, cro, cuserId⟩ := ctx
    cases cro <;> simp [authorize, isFarmerRoles]
  refine ⟨?_, ?_, ?_⟩ <;>
    simp [postBreedRoute, hgate, hrole, hmime, errorMiddleware]

/-- C7, witness: the theorem applied to an authenticated farmer uploading
a `image/gif` file. -/
theorem C7_file_type_gate_before_network_witness :
    authenticateToken (fun _ => .valid "fb1" none none) (some "Bearer t")
        [User.mk "u1" "fb1" "a@b.c" none .FARMER none true 0]
      = .proceed ⟨"fb1", "a@b.c", .FARMER, "u1"⟩ ∧
    fileFilter "image/gif" = false ∧
    ((postBreedRoute (fun _ => .valid "fb1" none none) (some "Bearer t")
        [User.mk "u1" "fb1" "a@b.c" none .FARMER none true 0]
        (some ⟨"a.gif", 10, "image/gif"⟩) true .connRefused "p1" 5 7 []).reply
      = ⟨400, some "Invalid file type. Only JPEG, PNG, and WebP are allowed."⟩ ∧
     (postBreedRoute (fun _ => .valid "fb1" none none) (some "Bearer t")
        [User.mk "u1" "fb1" "a@b.c" none .FARMER none true 0]
        (some ⟨"a.gif", 10, "image/gif"⟩) true .connRefused "p1" 5 7 []).flaskCalls = [] ∧
     (postBreedRoute (fun _ => .valid "fb1" none none) (some "Bearer t")
        [User.mk "u1" "fb1" "a@b.c" none .FARMER none true 0]
        (some ⟨"a.gif", 10, "image/gif"⟩) true .connRefused "p1" 5 7 []).db = []) :=
  ⟨by decide, by decide,
    C7_file_type_gate_before_network (fun _ => .valid "fb1" none none) (some "Bearer t")
      [User.mk "u1" "fb1" "a@b.c" none .FARMER none true 0]
      ⟨"a.gif", 10, "image/gif"⟩ true .connRefused "p1" 5 7 []
      ⟨"fb1", "a@b.c", .FARMER, "u1"⟩ (by decide) (by decide)⟩

/-- C8: the user-deactivation operation never hard-deletes.  `deleteUser`
preserves the number of rows; each position holds the original row when
its id differs from the target, and the original row with only
`isActive` flipped to false when it matches — every other field of the
flipped row is unchanged. -/
theorem C8_soft_delete_frame (db : List User) (id : String) (i : Nat) (u : User)
    (hu : u.id ≠ id) :
    (deleteUser db id).length = db.length ∧
    (deleteUser db id)[i]?
      = db[i]?.map (fun v => if v.id == id then { v with isActive := false } else v) ∧
    (∀ v : User,
      ({ v with isActive := false } : User).id = v.id ∧
      ({ v with isActive := false } : User).firebaseUid = v.firebaseUid ∧
      ({ v with isActive := false } : User).email = v.email ∧
      ({ v with isActive := false } : User).name = v.name ∧
      ({ v with isActive := false } : User).role = v.role ∧
      ({ v with isActive := false } : User).profileImage = v.profileImage ∧
      ({ v with isActive := false } : User).createdAt = v.createdAt ∧
      ({ v with isActive := false } : User).isActive = false) ∧
    (if u.id == id then { u with isActive := false } else u) = u := by
  refine ⟨List.length_map _ _, List.getElem?_map _ _ _, fun v => ⟨rfl, rfl, rfl, rfl, rfl, rfl, rfl, rfl⟩, ?_⟩
  simp [hu]

/-- C8, witness: the frame theorem applied to a two-row store, position 0,
and a row whose id differs from the deactivation target. -/
theorem C8_soft_delete_frame_witness :
    (User.mk "u2" "fb2" "x@y.z" none .ADMIN none true 3).id ≠ "u1" ∧
    ((deleteUser [User.mk "u1" "fb1" "a@b.c" none .FARMER none true 0,
        User.mk "u2" "fb2" "x@y.z" none .ADMIN none true 3] "u1").length
      = [User.mk "u1" "fb1" "a@b.c" none .FARMER none true 0,
          User.mk "u2" "fb2" "x@y.z" none .ADMIN none true 3].length ∧
     (deleteUser [User.mk "u1" "fb1" "a@b.c" none .FARMER none true 0,
        User.mk "u2" "fb2" "x@y.z" none .ADMIN none true 3] "u1")[0]?
      = [User.mk "u1" "fb1" "a@b.c" none .FARMER none true 0,
          User.mk "u2" "fb2" "x@y.z" none .ADMIN none true 3][0]?.map
          (fun v => if v.id == "u1" then { v with isActive := false } else v) ∧
     (∀ v : User,
      ({ v with isActive := false } : User).id = v.id ∧
      ({ v with isActive := false } : User).firebaseUid = v.firebaseUid ∧
      ({ v with isActive := false } : User).email = v.email ∧
      ({ v with isActive := false } : User).name = v.name ∧
      ({ v with isActive := false } : User).role = v.role ∧
      ({ v with isActive := false } : User).profileImage = v.profileImage ∧
      ({ v with isActive := false } : User).createdAt = v.createdAt ∧
      ({ v with isActive := false } : User).isActive = false) ∧
     (if (User.mk "u2" "fb2" "x@y.z" none .ADMIN none true 3).id == "u1"
        then { User.mk "u2" "fb2" "x@y.z" none .ADMIN none true 3 with isActive := false }
        else User.mk "u2" "fb2" "x@y.z" none .ADMIN none true 3)
      = User.mk "u2" "fb2" "x@y.z" none .ADMIN none true 3) :=
  ⟨by decide,
    C8_soft_delete_frame
      [User.mk "u1" "fb1" "a@b.c" none .FARMER none true 0,
        User.mk "u2" "fb2" "x@y.z" none .ADMIN none true 3] "u1" 0
      (User.mk "u2" "fb2" "x@y.z" none .ADMIN none true 3) (by decide)⟩

/-- C9: ownership scoping of `GET /predictions/:id`.  When every row
carrying the requested id belongs to someone other than the caller, the
endpoint answers 404 with no data; and whenever it returns a row, that
row's owner is the caller. -/
theorem C9_prediction_ownership (db db2 : List Prediction)
    (caller id caller2 id2 : String) (p : Prediction)
    (hin : p ∈ db) (hid : p.id = id) (hother : p.userId ≠ caller)
    (huniq : ∀ q ∈ db, q.id = id → q = p) :
    (getPredictionById db caller id).1 = 404 ∧
    (getPredictionById db caller id).2 = none ∧
    (∀ q : Prediction, (getPredictionById db2 caller2 id2).2 = some q →
      q.userId = caller2) := by
  have hnone : db.find? (fun t => t.id == id && t.userId == caller) = none := by
    rw [List.find?_eq_none]
    intro x hx hb
    simp only [Bool.and_eq_true, beq_iff_eq] at hb
    obtain ⟨hb1, hb2⟩ := hb
    have hxp := huniq x hx hb1
    rw [hxp] at hb2
    exact hother hb2
  refine ⟨?_, ?_, ?_⟩
  · simp [getPredictionById, hnone]
  · simp [getPredictionById, hnone]
  · intro q hq
    cases hfind : db2.find? (fun t => t.id == id2 && t.userId == caller2) with
    | none => simp [getPredictionById, hfind] at hq
    | some t =>
      simp [getPredictionById, hfind] at hq
      have hpt := List.find?_some hfind
      simp only [Bool.and_eq_true, beq_iff_eq] at hpt
      rw [← hq]
      exact hpt.2

/-- C9, witness: a store holding one prediction owned by `other`; the
caller `me` requesting its id obtains 404, and a successful lookup in a
second store returns only an owned row. -/
theorem C9_prediction_ownership_witness :
    Prediction.mk "p1" "other" "temp/a" "Gir" 1 1 none 0
      ∈ [Prediction.mk "p1" "other" "temp/a" "Gir" 1 1 none 0] ∧
    (Prediction.mk "p1" "other" "temp/a" "Gir" 1 1 none 0).id = "p1" ∧
    (Prediction.mk "p1" "other" "temp/a" "Gir" 1 1 none 0).userId ≠ "me" ∧
    ((getPredictionById [Prediction.mk "p1" "other" "temp/a" "Gir" 1 1 none 0] "me" "p1").1
      = 404 ∧
     (getPredictionById [Prediction.mk "p1" "other" "temp/a" "Gir" 1 1 none 0] "me" "p1").2
      = none ∧
     (∀ q : Prediction,
       (getPredictionById [Prediction.mk "p2" "me" "temp/b" "Gir" 1 1 none 0] "me" "p2").2
         = some q → q.userId = "me")) :=
  ⟨by decide, by decide, by decide,
    C9_prediction_ownership
      [Prediction.mk "p1" "other" "temp/a" "Gir" 1 1 none 0]
      [Prediction.mk "p2" "me" "temp/b" "Gir" 1 1 none 0]
      "me" "p1" "me" "p2"
      (Prediction.mk "p1" "other" "temp/a" "Gir" 1 1 none 0)
      (by decide) (by decide) (by decide)
      (by
        intro q hq hqid
        simp only [List.mem_singleton] at hq
        exact hq)⟩

/-! ### C10: the `firebaseUid` field never crosses the HTTP boundary -/

/-- Two user rows that agree on every field except possibly
`firebaseUid`. -/
def sameButFirebaseUid (u v : User) : Prop :=
  u.id = v.id ∧ u.email = v.email ∧ u.name = v.name ∧ u.role = v.role ∧
  u.profileImage = v.profileImage ∧ u.isActive = v.isActive ∧ u.createdAt = v.createdAt

/-- Helper: stripping `firebaseUid` collapses rows that differ only in
that field. -/
theorem strip_eq_of_sameBut {u v : User} (h : sameButFirebaseUid u v) :
    stripFirebaseUid u = stripFirebaseUid v := by
  obtain ⟨h1, h2, h3, h4, h5, h6, h7⟩ := h
  simp [stripFirebaseUid, h1, h2, h3, h4, h5, h6, h7]

/-- Helper: a profile update treats two rows that differ only in
`firebaseUid` identically. -/
theorem applyUpdate_sameBut {u v : User} (d : UpdateUserData)
    (h : sameButFirebaseUid u v) :
    sameButFirebaseUid (applyUpdate d u) (applyUpdate d v) := by
  obtain ⟨h1, h2, h3, h4, h5, h6, h7⟩ := h
  exact ⟨h1, h2, by simp [applyUpdate]; rw [h3], by simp [applyUpdate]; rw [h4],
    by simp [applyUpdate]; rw [h5], by simp [applyUpdate]; rw [h6], h7⟩

/-- Helper: a predicate that respects a relation searches related lists
consistently. -/
theorem find?_forall2 {α : Type} {R : α → α → Prop} {p : α → Bool}
    (hp : ∀ a b, R a b → p a = p b) :
    ∀ {l1 l2 : List α}, List.Forall₂ R l1 l2 →
      (l1.find? p = none ∧ l2.find? p = none) ∨
      (∃ a b, R a b ∧ l1.find? p = some a ∧ l2.find? p = some b) := by
  intro l1 l2 h
  induction h with
  | nil => exact .inl ⟨rfl, rfl⟩
  | @cons a b l1t l2t hab htl ih =>
    by_cases hpa : p a = true
    · right
      refine ⟨a, b, hab, List.find?_cons_of_pos _ hpa, List.find?_cons_of_pos _ ?_⟩
      rw [← hp a b hab]
      exact hpa
    · have hpb : ¬ p b = true := by
        rw [← hp a b hab]
        exact hpa
      rcases ih with ⟨h1, h2⟩ | ⟨x, y, hxy, h1, h2⟩
      · left
        exact ⟨by rw [List.find?_cons_of_neg _ hpa]; exact h1,
          by rw [List.find?_cons_of_neg _ hpb]; exact h2⟩
      · right
        exact ⟨x, y, hxy, by rw [List.find?_cons_of_neg _ hpa]; exact h1,
          by rw [List.find?_cons_of_neg _ hpb]; exact h2⟩

/-- Helper: the profile / user-by-id endpoint gives identical responses
over stores that differ only in `firebaseUid` values. -/
theorem getProfileEndpoint_congr (db1 db2 : List User) (pdb : List Prediction)
    (id : String) (hrel : List.Forall₂ sameButFirebaseUid db1 db2) :
    getProfileEndpoint db1 pdb id = getProfileEndpoint db2 pdb id := by
  have hp : ∀ u v : User, sameButFirebaseUid u v → (u.id == id) = (v.id == id) := by
    intro u v h
    rw [h.1]
  rcases find?_forall2 hp hrel with ⟨h1, h2⟩ | ⟨a, b, hab, h1, h2⟩
  · unfold getProfileEndpoint findUserById
    rw [h1, h2]
  · unfold getProfileEndpoint findUserById
    rw [h1, h2]
    have hs := strip_eq_of_sameBut hab
    simp only []
    rw [hs, hab.1]

/-- Helper: the profile-update endpoint's HTTP response is identical over
stores that differ only in `firebaseUid` values, for any mirror
outcomes. -/
theorem updateProfileEndpoint_congr (db1 db2 : List User) (m1 m2 : MirrorOutcome)
    (callerId : String) (nm pimg : Option String)
    (hrel : List.Forall₂ sameButFirebaseUid db1 db2) :
    (updateProfileEndpoint m1 db1 callerId nm pimg).1
      = (updateProfileEndpoint m2 db2 callerId nm pimg).1 := by
  have hp : ∀ u v : User, sameButFirebaseUid u v →
      (u.id == callerId) = (v.id == callerId) := by
    intro u v h
    rw [h.1]
  rcases find?_forall2 hp hrel with ⟨h1, h2⟩ | ⟨a, b, hab, h1, h2⟩
  · unfold updateProfileEndpoint updateUser findUserById
    rw [h1, h2]
  · unfold updateProfileEndpoint updateUser findUserById
    rw [h1, h2]
    have hs := strip_eq_of_sameBut
      (applyUpdate_sameBut { name := nm, profileImage := pimg } hab)
    simp only []
    rw [hs]

/-- C10: responses of the user-profile endpoints carry no `firebaseUid`.
Stripping collapses rows differing only in `firebaseUid`, and over two
stores that differ only in `firebaseUid` values the profile endpoint, the
user-by-id endpoint (the same lookup at a path-parameter id) and the
profile-update endpoint produce identical HTTP responses. -/
theorem C10_firebaseUid_never_leaks (db1 db2 : List User) (pdb : List Prediction)
    (m1 m2 : MirrorOutcome) (callerId pathId : String) (nm pimg : Option String)
    (hrel : List.Forall₂ sameButFirebaseUid db1 db2) :
    (∀ u v : User, sameButFirebaseUid u v → stripFirebaseUid u = stripFirebaseUid v) ∧
    getProfileEndpoint db1 pdb callerId = getProfileEndpoint db2 pdb callerId ∧
    getProfileEndpoint db1 pdb pathId = getProfileEndpoint db2 pdb pathId ∧
    (updateProfileEndpoint m1 db1 callerId nm pimg).1
      = (updateProfileEndpoint m2 db2 callerId nm pimg).1 :=
  ⟨fun _ _ h => strip_eq_of_sameBut h,
    getProfileEndpoint_congr db1 db2 pdb callerId hrel,
    getProfileEndpoint_congr db1 db2 pdb pathId hrel,
    updateProfileEndpoint_congr db1 db2 m1 m2 callerId nm pimg hrel⟩

/-- C10, witness: two one-row stores whose rows differ exactly in
`firebaseUid`. -/
theorem C10_firebaseUid_never_leaks_witness :
    List.Forall₂ sameButFirebaseUid
      [User.mk "u1" "fbA" "a@b.c" none .FARMER none true 0]
      [User.mk "u1" "fbB" "a@b.c" none .FARMER none true 0] ∧
    ((∀ u v : User, sameButFirebaseUid u v →
        stripFirebaseUid u = stripFirebaseUid v) ∧
     getProfileEndpoint [User.mk "u1" "fbA" "a@b.c" none .FARMER none true 0] [] "u1"
      = getProfileEndpoint [User.mk "u1" "fbB" "a@b.c" none .FARMER none true 0] [] "u1" ∧
     getProfileEndpoint [User.mk "u1" "fbA" "a@b.c" none .FARMER none true 0] [] "u9"
      = getProfileEndpoint [User.mk "u1" "fbB" "a@b.c" none .FARMER none true 0] [] "u9" ∧
     (updateProfileEndpoint .ok [User.mk "u1" "fbA" "a@b.c" none .FARMER none true 0]
        "u1" (some "N") none).1
      = (updateProfileEndpoint (.failure "down")
        [User.mk "u1" "fbB" "a@b.c" none .FARMER none true 0]
        "u1" (some "N") none).1) :=
  ⟨List.Forall₂.cons ⟨rfl, rfl, rfl, rfl, rfl, rfl, rfl⟩ List.Forall₂.nil,
    C10_firebaseUid_never_leaks
      [User.mk "u1" "fbA" "a@b.c" none .FARMER none true 0]
      [User.mk "u1" "fbB" "a@b.c" none .FARMER none true 0]
      [] .ok (.failure "down") "u1" "u9" (some "N") none
      (List.Forall₂.cons ⟨rfl, rfl, rfl, rfl, rfl, rfl, rfl⟩ List.Forall₂.nil)⟩

end CowSIH
